import Mathlib

/-
  Shallow embedding of src/adapter/scripts/codelldb/api.py (the event-bridge
  and panel-lifecycle coordinator of the codelldb checkpoint visualization).

  Conventions of the embedding:
  * Python dict payloads become inductive types whose constructors carry the
    fields of the corresponding dict literal in api.py.
  * The effectful interface calls (interface.fire_event, interface.send_message,
    Webview.post_message, Webview.reveal) are recorded in an action trace;
    traces are returned alongside the successor state.
  * The `interface` module and the `Webview` class are not part of src/; the
    parts of their behavior that the coordinator depends on (listener stream
    delivery, panel id allocation, disposal callbacks) are modelled from the
    spec and marked as such in their doc comments.
  * Python exceptions (KeyError from msg[...] / dict[...]) are modelled as an
    `Option PyError` component of the result: state mutations performed before
    the raise persist, matching Python semantics.
  * A Python closure returned by CBManager.new_cb is fully determined by the
    registration index it captures; the embedding therefore represents each
    registered callback by that index, and `_debug_message i` below is the
    behavior of the closure that captured index `i`.
-/

namespace CodeLLDB

/-- One stack frame of a checkpoint record (spec section 6 wire shape). -/
structure Frame where
  module : String
  file_address : Nat
  load_address : Nat
deriving DecidableEq

/-- A checkpoint record: a memory access address plus its captured stack. -/
structure CheckpointRecord where
  last_access : Nat
  frames : List Frame
deriving DecidableEq

/-- Payloads passed to interface.fire_event in api.py.  Each constructor is one
dict literal from the source; `eventType` below recovers the `type` field. -/
inductive EventPayload where
  | watchCommand (address : Nat)
  | debuggerMessageAddr (address : Nat)
  | debuggerMessageOut (output : List CheckpointRecord) (category : String)
  | getCheckpoints
deriving DecidableEq

/-- The `type` discriminator string carried by each fire_event payload dict. -/
def eventType : EventPayload → String
  | .watchCommand _ => "WatchCommand"
  | .debuggerMessageAddr _ => "DebuggerMessage"
  | .debuggerMessageOut _ _ => "DebuggerMessage"
  | .getCheckpoints => "GetCheckpoints"

/-- Stand-in for the checkpoints table markup string of api.py lines 160-293.
The literal is purely presentational (spec section 1 scopes out the panel
HTML); no claim inspects its text, only its position in the creation dict. -/
def checkpointsHtml : String := "checkpoints table markup"

/-- Payloads passed to interface.send_message in api.py (the webviewCreate
dict of CBManager.create_webview, fields in source order). -/
inductive MsgPayload where
  | webviewCreate (id : Nat) (html : String) (title : String) (viewColumn : Nat)
      (preserveFocus : Bool) (enableFindWidget : Bool)
      (retainContextWhenHidden : Bool) (enableScripts : Bool)
      (preserveOrphaned : Bool)
deriving DecidableEq

/-- Payload posted to a webview panel via Webview.post_message. -/
inductive PostPayload where
  | checkpointData (json : List CheckpointRecord)
deriving DecidableEq

/-- One observable effect of the coordinator.  `invokeHandler i` instruments
the entry into the `_debug_message` closure that captured index `i`. -/
inductive Action where
  | fireEvent (debuggerId : Nat) (p : EventPayload)
  | sendMessage (debuggerId : Nat) (p : MsgPayload)
  | postMessage (panelId : Nat) (p : PostPayload)
  | revealPanel (panelId : Nat) (viewColumn : Nat)
  | invokeHandler (i : Nat)
deriving DecidableEq

/-- An inbound message from the bridge stream: a structured record that may or
may not contain a `checkpoints` field (msg[...] raises KeyError when absent). -/
structure InMsg where
  checkpoints : Option (List CheckpointRecord)
deriving DecidableEq

/-- Python exceptions that the embedded code can raise. -/
inductive PyError where
  | keyError
deriving DecidableEq

/-- State of the module singleton cb_manager plus the parts of the ambient
interface it mutates.
  * callbacks : keys of the self._callbacks dict (each closure is represented
    by its captured index, see file header).
  * idx : the monotonic registration counter self.idx.
  * wv : self.wv, the panel handle currently held (none encodes Python None).
  * debugger_id : self.debugger_id.  Python leaves this attribute unset until
    new_cb first assigns it; no verified scenario reads it before a new_cb.
  * listeners : the interface.on_did_receive_message listener list (by index).
  * nextPanelId : allocation counter for fresh Webview panel ids (modelled
    from the spec: panelId is an opaque handle assigned at creation).
  * livePanels : panels created and not yet disposed, in creation order. -/
structure CBState where
  callbacks : List Nat
  idx : Nat
  wv : Option Nat
  debugger_id : Nat
  listeners : List Nat
  nextPanelId : Nat
  livePanels : List Nat
deriving DecidableEq

namespace CBManager

/-- CBManager.__init__ (api.py lines 146-149): empty callback dict, idx 0,
no webview.  debugger_id is represented as 0 until new_cb assigns it. -/
def init : CBState :=
  { callbacks := [], idx := 0, wv := none, debugger_id := 0,
    listeners := [], nextPanelId := 0, livePanels := [] }

/-- CBManager.create_webview (api.py lines 151-159 and 296-309): constructs a
fresh Webview, stores it in self.wv, registers an on_disposed closure that
resets self.wv to None, sends the webviewCreate request, and reveals the
panel in view column 2. -/
def create_webview (s : CBState) : CBState × List Action :=
  let pid := s.nextPanelId
  ({ s with nextPanelId := pid + 1, wv := some pid,
            livePanels := s.livePanels ++ [pid] },
   [Action.sendMessage s.debugger_id
      (MsgPayload.webviewCreate pid checkpointsHtml "Checkpoints" 2
        false true true true true),
    Action.revealPanel pid 2])

/-- CBManager.update_webview (api.py lines 312-317): fires the DebuggerMessage
diagnostic event, lazily creates the webview when self.wv is None, then posts
the checkpointData message to self.wv. -/
def update_webview (data : List CheckpointRecord) (s : CBState) :
    CBState × List Action :=
  let diag := Action.fireEvent s.debugger_id
    (EventPayload.debuggerMessageOut data "python")
  match s.wv with
  | some p =>
      (s, [diag, Action.postMessage p (PostPayload.checkpointData data)])
  | none =>
      let r := create_webview s
      (r.1, diag :: r.2 ++
        [Action.postMessage (r.1.wv.getD 0) (PostPayload.checkpointData data)])

/-- CBManager.new_cb (api.py lines 320-332): records the current debugger id,
captures the current idx in a fresh _debug_message closure, stores it in
self._callbacks, increments idx, and returns the closure (represented here by
its captured index). -/
def new_cb (dbg : Nat) (s : CBState) : CBState × Nat :=
  let s1 := { s with debugger_id := dbg }
  let i := s1.idx
  ({ s1 with callbacks := s1.callbacks ++ [i], idx := i + 1 }, i)

/-- CBManager.remove_cb (api.py lines 334-336): self._callbacks[idx] raises
KeyError when idx is absent; otherwise the stored closure is removed from the
interface listener stream and popped from the dict. -/
def remove_cb (i : Nat) (s : CBState) : CBState × Option PyError :=
  if s.callbacks.contains i then
    ({ s with listeners := s.listeners.erase i,
              callbacks := s.callbacks.erase i }, none)
  else
    (s, some PyError.keyError)

/-- The _debug_message closure body (api.py lines 324-327) for the closure
that captured index `i`: reads msg[checkpoints] (KeyError when the field is
absent), forwards the data to update_webview, then removes its own
registration.  The invokeHandler action marks the invocation itself. -/
def _debug_message (i : Nat) (msg : InMsg) (s : CBState) :
    CBState × List Action × Option PyError :=
  match msg.checkpoints with
  | none => (s, [Action.invokeHandler i], some PyError.keyError)
  | some cps =>
      let r := update_webview cps s
      let r2 := remove_cb i r.1
      (r2.1, Action.invokeHandler i :: r.2, r2.2)

end CBManager

/-- get_checkpoints command (api.py lines 340-344): registers a fresh callback
via cb_manager.new_cb, adds it to the interface listener stream, and fires the
GetCheckpoints request event. -/
def get_checkpoints (dbg : Nat) (s : CBState) : CBState × List Action :=
  let r := CBManager.new_cb dbg s
  ({ r.1 with listeners := r.1.listeners ++ [r.2] },
   [Action.fireEvent dbg EventPayload.getCheckpoints])

/-- Modelled from the spec: the inbound listener stream of the Message Bridge
(interface.on_did_receive_message, not under src/) delivers a structured
record to all listeners active at delivery start, in registration order; an
exception raised inside a listener propagates out of the delivery, keeping
the state mutations made so far. -/
def runListeners (ls : List Nat) (msg : InMsg) (s : CBState) :
    CBState × List Action × Option PyError :=
  match ls with
  | [] => (s, [], none)
  | i :: rest =>
      let r := CBManager._debug_message i msg s
      match r.2.2 with
      | some e => (r.1, r.2.1, some e)
      | none =>
          let r2 := runListeners rest msg r.1
          (r2.1, r.2.1 ++ r2.2.1, r2.2.2)

/-- Modelled from the spec: delivery of one inbound bridge message to the
shared listener stream. -/
def deliver (msg : InMsg) (s : CBState) : CBState × List Action × Option PyError :=
  runListeners s.listeners msg s

/-- Modelled from the spec: the host notifies disposal of a panel; every panel
created by CBManager.create_webview registered an on_disposed closure that
unconditionally resets self.wv to None (api.py lines 155-156). -/
def dispose (pid : Nat) (s : CBState) : CBState :=
  if s.livePanels.contains pid then
    { s with livePanels := s.livePanels.erase pid, wv := none }
  else s

/-- watch_address (api.py lines 78-80): fires a DebuggerMessage-typed event
carrying the address; touches no callback-registry state. -/
def watch_address (dbg : Nat) (addr : Nat) : List Action :=
  [Action.fireEvent dbg (EventPayload.debuggerMessageAddr addr)]

/-- The helper _watch_page (api.py lines 124-126): fires the WatchCommand
event carrying the address. -/
def _watch_page (dbg : Nat) (addr : Nat) : List Action :=
  [Action.fireEvent dbg (EventPayload.watchCommand addr)]

/-- Python str.split() with no separator: splits on runs of whitespace and
returns no empty tokens, so command.strip().split() equals command.split().
The accumulator holds the current token in reverse. -/
def splitWSAux : List Char → List Char → List String
  | [], acc => if acc.isEmpty then [] else [String.mk acc.reverse]
  | c :: cs, acc =>
      if c.isWhitespace then
        if acc.isEmpty then splitWSAux cs []
        else String.mk acc.reverse :: splitWSAux cs []
      else splitWSAux cs (c :: acc)

/-- command.strip().split() of api.py line 132. -/
def pySplit (s : String) : List String := splitWSAux s.data []

/-- watch_page command (api.py lines 128-139): splits the raw command string;
with anything but exactly one token it sets the usage error on the result and
performs no bridge action; with one token it resolves the token through the
expression evaluator (target.EvaluateExpression(...).GetValueAsUnsigned(),
an external collaborator modelled as a total function, faithful to lldb which
returns 0 rather than raising on a failed evaluation) and fires the
WatchCommand event.  The returned pair is (result error message, actions). -/
def watch_page (dbg : Nat) (evalExpr : String → Nat) (cmd : String) :
    Option String × List Action :=
  match pySplit cmd with
  | [a] => (none, _watch_page dbg (evalExpr a))
  | _ => (some "Usage: watch_page <address>", [])

/-- Number of times the handler that captured index `i` was entered. -/
def invokeCount (i : Nat) (tr : List Action) : Nat :=
  tr.count (Action.invokeHandler i)

/-- Panel ids of the webviewCreate requests occurring in a trace. -/
def creationIds (tr : List Action) : List Nat :=
  tr.filterMap fun a =>
    match a with
    | Action.sendMessage _ (MsgPayload.webviewCreate pid _ _ _ _ _ _ _ _) =>
        some pid
    | _ => none

/-- The panel-creation and data-post requests of a trace, in order, projected
to the panel id they reference (and the posted data). -/
inductive PanelOp where
  | create (pid : Nat)
  | post (pid : Nat) (json : List CheckpointRecord)
deriving DecidableEq

/-- Extracts the creation and post requests of a trace, keeping their order. -/
def panelOps (tr : List Action) : List PanelOp :=
  tr.filterMap fun a =>
    match a with
    | Action.sendMessage _ (MsgPayload.webviewCreate pid _ _ _ _ _ _ _ _) =>
        some (PanelOp.create pid)
    | Action.postMessage pid (PostPayload.checkpointData j) =>
        some (PanelOp.post pid j)
    | _ => none

/-- Number of DebuggerMessage diagnostic events (the output/category form
fired by update_webview) occurring in a trace. -/
def diagCount (tr : List Action) : Nat :=
  tr.countP fun a =>
    match a with
    | Action.fireEvent _ (EventPayload.debuggerMessageOut _ _) => true
    | _ => false

/-- State after one get_checkpoints command on the fresh singleton: one
registration (index 0) is live, its listener is on the stream. -/
def oneRegState : CBState := (get_checkpoints 7 CBManager.init).1

/-- State after two successive get_checkpoints commands on the fresh
singleton: registrations 0 and 1 are live, both listeners are on the
stream. -/
def twoRegState : CBState := (get_checkpoints 7 oneRegState).1

/-- State after a full checkpoint round-trip: one registration made, one
well-formed response delivered, so the panel is Live (panel id 0) and the
registry is empty again. -/
def livePanelState : CBState := (deliver ⟨some []⟩ oneRegState).1

/-- C1: with registrations 0 (handler H1) and 1 (handler H2) both live,
delivering one inbound checkpoints message invokes BOTH handlers, each once,
because every registration subscribes a general-purpose listener on the
shared stream and no listener keys on a correlation id.  This exhibits H1
firing for a message meant for registration 1, contradicting the claim that
a handler is never invoked for a message not correlated to its own id. -/
theorem one_delivery_fires_every_live_handler :
    invokeCount 0 (deliver ⟨some []⟩ twoRegState).2.1 = 1 ∧
    invokeCount 1 (deliver ⟨some []⟩ twoRegState).2.1 = 1 := by
  decide

/-- C2: with registration 0 live, delivering an inbound message that lacks
the checkpoints field raises KeyError out of the listener into the shared
stream (msg[checkpoints] at api.py line 325), contradicting the claim that
delivery of a message no live registration matches never raises. -/
theorem malformed_delivery_raises_keyerror :
    (deliver ⟨none⟩ oneRegState).2.2 = some PyError.keyError := by
  decide

/-- C8: remove_cb on an id absent from the registry raises KeyError
(self._callbacks[idx] at api.py line 335) instead of being an idempotent
no-op, contradicting the claim that cancel of an absent id never raises. -/
theorem remove_absent_id_raises_keyerror :
    (CBManager.remove_cb 0 CBManager.init).2 = some PyError.keyError ∧
    (CBManager.remove_cb 0 CBManager.init).1 = CBManager.init := by
  decide

/-- C10: watch_address fires exactly one event whose type discriminator is
DebuggerMessage (not WatchCommand) carrying the address, and performs no
registry operation (its signature touches no CBState); the watch_page helper
path fires a WatchCommand-typed event for the same address, so the two event
types differ. -/
theorem watch_address_fires_debugger_message (dbg addr : Nat) :
    watch_address dbg addr =
      [Action.fireEvent dbg (EventPayload.debuggerMessageAddr addr)] ∧
    eventType (EventPayload.debuggerMessageAddr addr) = "DebuggerMessage" ∧
    _watch_page dbg addr =
      [Action.fireEvent dbg (EventPayload.watchCommand addr)] ∧
    eventType (EventPayload.watchCommand addr) = "WatchCommand" ∧
    eventType (EventPayload.debuggerMessageAddr addr) ≠
      eventType (EventPayload.watchCommand addr) := by
  refine ⟨rfl, rfl, rfl, rfl, by simp [eventType]⟩

/-- C3: after a checkpoint round-trip the panel with id 0 is Live, yet an
explicit create_webview call sends a second webviewCreate request allocating
panel id 1 while panel 0 is still undisposed, leaving two live panels:
create_webview has no guard on self.wv (api.py lines 151-159), contradicting
the claim that an explicit create while a panel is Live does not create a
second panel. -/
theorem explicit_create_while_live_makes_second_panel :
    livePanelState.wv = some 0 ∧
    livePanelState.livePanels = [0] ∧
    creationIds (CBManager.create_webview livePanelState).2 = [1] ∧
    (CBManager.create_webview livePanelState).1.livePanels = [0, 1] := by
  decide

/-- C4: an update in the Absent panel state (self.wv is None) issues exactly
one creation request followed by exactly one data-post request, both carrying
the freshly allocated panel id; a second update with no disposal in between
adds exactly one more data-post and no further creation. -/
theorem update_when_absent_creates_then_posts (s : CBState)
    (d d2 : List CheckpointRecord) (h : s.wv = none) :
    panelOps (CBManager.update_webview d s).2 =
      [PanelOp.create s.nextPanelId, PanelOp.post s.nextPanelId d] ∧
    panelOps ((CBManager.update_webview d s).2 ++
        (CBManager.update_webview d2 (CBManager.update_webview d s).1).2) =
      [PanelOp.create s.nextPanelId, PanelOp.post s.nextPanelId d,
       PanelOp.post s.nextPanelId d2] := by
  simp [CBManager.update_webview, CBManager.create_webview, panelOps, h]

/-- Witness for C4 at a concrete Absent-state input. -/
theorem update_when_absent_creates_then_posts_witness :
    panelOps (CBManager.update_webview [] oneRegState).2 =
      [PanelOp.create 0, PanelOp.post 0 []] ∧
    panelOps ((CBManager.update_webview [] oneRegState).2 ++
        (CBManager.update_webview [] (CBManager.update_webview [] oneRegState).1).2) =
      [PanelOp.create 0, PanelOp.post 0 [], PanelOp.post 0 []] :=
  update_when_absent_creates_then_posts oneRegState [] [] rfl

/-- C9: every update_webview call, whether the panel is Live or Absent, fires
the DebuggerMessage diagnostic event (output is the checkpoint data, category
python) as its first action, hence before any creation or data-post request,
and fires it exactly once. -/
theorem update_always_fires_diagnostic_first (d : List CheckpointRecord)
    (s : CBState) :
    ((CBManager.update_webview d s).2).head? =
      some (Action.fireEvent s.debugger_id
        (EventPayload.debuggerMessageOut d "python")) ∧
    diagCount (CBManager.update_webview d s).2 = 1 := by
  cases h : s.wv <;>
    simp [CBManager.update_webview, CBManager.create_webview, diagCount, h]

/-- A finite sequence of n successive new_cb registrations, collecting the
index captured by (and identifying) each returned closure. -/
def registerSeq (dbg : Nat) : Nat → CBState → CBState × List Nat
  | 0, s => (s, [])
  | n + 1, s =>
      let r := CBManager.new_cb dbg s
      let r2 := registerSeq dbg n r.1
      (r2.1, r.2 :: r2.2)

/-- The arithmetic progression a, a+1, ..., a+n-1. -/
def idsFrom : Nat → Nat → List Nat
  | _, 0 => []
  | a, n + 1 => a :: idsFrom (a + 1) n

theorem mem_idsFrom {i a n : Nat} (h : i ∈ idsFrom a n) : a ≤ i := by
  induction n generalizing a with
  | zero => simp [idsFrom] at h
  | succ n ih =>
      simp only [idsFrom, List.mem_cons] at h
      rcases h with rfl | h
      · exact Nat.le_refl i
      · exact Nat.le_trans (Nat.le_succ a) (ih h)

theorem idsFrom_pairwise_lt (a n : Nat) : (idsFrom a n).Pairwise (· < ·) := by
  induction n generalizing a with
  | zero => simp [idsFrom]
  | succ n ih =>
      simp only [idsFrom, List.pairwise_cons]
      exact ⟨fun i hi => Nat.lt_of_lt_of_le (Nat.lt_succ_self a) (mem_idsFrom hi),
             ih (a + 1)⟩

theorem registerSeq_ids (dbg n : Nat) (s : CBState) :
    (registerSeq dbg n s).2 = idsFrom s.idx n ∧
    (registerSeq dbg n s).1.idx = s.idx + n := by
  induction n generalizing s with
  | zero => simp [registerSeq, idsFrom]
  | succ n ih =>
      have h := ih (CBManager.new_cb dbg s).1
      simp only [registerSeq, CBManager.new_cb] at h ⊢
      refine ⟨by rw [h.1]; rfl, by rw [h.2]; omega⟩

/-- C6: every new_cb call succeeds (the operation is total), and over any
finite sequence of registrations the allocated ids form the progression
idx, idx+1, ..., hence are pairwise distinct and strictly increasing; the
counter ends at idx+n, so ids are never reused later in the lifetime of the
registry. -/
theorem register_ids_strictly_increasing (dbg n : Nat) (s : CBState) :
    (registerSeq dbg n s).2 = idsFrom s.idx n ∧
    ((registerSeq dbg n s).2).Pairwise (· < ·) ∧
    (registerSeq dbg n s).1.idx = s.idx + n := by
  obtain ⟨h1, h2⟩ := registerSeq_ids dbg n s
  exact ⟨h1, h1 ▸ idsFrom_pairwise_lt s.idx n, h2⟩

/-- C7: the watch_page command with anything but exactly one whitespace
token reports the usage error and fires no bridge event; with exactly one
token it resolves the token through the expression evaluator and fires
exactly one WatchCommand event carrying the resolved address.  It takes no
CBState and performs zero callback-registry operations. -/
theorem watch_page_contract (dbg : Nat) (evalExpr : String → Nat)
    (cmd : String) :
    ((pySplit cmd).length ≠ 1 →
      watch_page dbg evalExpr cmd = (some "Usage: watch_page <address>", [])) ∧
    (∀ a, pySplit cmd = [a] →
      watch_page dbg evalExpr cmd =
        (none, [Action.fireEvent dbg
          (EventPayload.watchCommand (evalExpr a))])) := by
  constructor
  · intro h
    rcases hc : pySplit cmd with _ | ⟨a, _ | ⟨b, t⟩⟩ <;>
      simp [watch_page, hc, _watch_page] at h ⊢
  · intro a ha
    simp [watch_page, ha, _watch_page]

/-- Witness for C7 at concrete inputs: a single-token command fires the one
WatchCommand event with the evaluated address; a two-token command reports
the usage error and fires nothing. -/
theorem watch_page_contract_witness :
    watch_page 3 (fun _ => 42) " 0x7fff1234 " =
      (none, [Action.fireEvent 3 (EventPayload.watchCommand 42)]) ∧
    watch_page 3 (fun _ => 42) "a b" =
      (some "Usage: watch_page <address>", []) :=
  ⟨(watch_page_contract 3 (fun _ => 42) " 0x7fff1234 ").2 "0x7fff1234"
      (by decide),
   (watch_page_contract 3 (fun _ => 42) "a b").1 (by decide)⟩

/-- C5 counterexample: the claim quantifies over every message m, but for a
message lacking the checkpoints field the handler is entered (invoked once)
and then raises, so the registration is NOT removed and an error escapes,
falsifying "invokes its stored handler exactly once and then removes the
registration ... no error is raised" at this input. -/
theorem dispatch_malformed_keeps_registration :
    invokeCount 0 (deliver ⟨none⟩ oneRegState).2.1 = 1 ∧
    (deliver ⟨none⟩ oneRegState).2.2 = some PyError.keyError ∧
    (deliver ⟨none⟩ oneRegState).1.callbacks = [0] ∧
    (deliver ⟨none⟩ oneRegState).1.listeners = [0] := by
  decide

theorem update_webview_registry_frame (d : List CheckpointRecord)
    (s : CBState) :
    (CBManager.update_webview d s).1.callbacks = s.callbacks ∧
    (CBManager.update_webview d s).1.listeners = s.listeners := by
  cases h : s.wv <;>
    simp [CBManager.update_webview, CBManager.create_webview, h]

theorem update_webview_no_invoke (i : Nat) (d : List CheckpointRecord)
    (s : CBState) :
    invokeCount i (CBManager.update_webview d s).2 = 0 := by
  cases h : s.wv <;>
    simp [CBManager.update_webview, CBManager.create_webview, invokeCount, h]

/-- C5 (amended): when the sole live registration is i and the delivered
message does carry the checkpoints field, delivery invokes the stored handler
exactly once, raises no error, and removes the registration from both the
dict and the listener stream; any subsequent delivery is then a no-op that
invokes no handler and raises no error. -/
theorem dispatch_wellformed_exactly_once (s : CBState) (i : Nat)
    (cps : List CheckpointRecord) (m2 : InMsg)
    (hL : s.listeners = [i]) (hC : s.callbacks = [i]) :
    invokeCount i (deliver ⟨some cps⟩ s).2.1 = 1 ∧
    (deliver ⟨some cps⟩ s).2.2 = none ∧
    (deliver ⟨some cps⟩ s).1.callbacks = [] ∧
    (deliver ⟨some cps⟩ s).1.listeners = [] ∧
    deliver m2 (deliver ⟨some cps⟩ s).1 = ((deliver ⟨some cps⟩ s).1, [], none) := by
  obtain ⟨hcb, hls⟩ := update_webview_registry_frame cps s
  have hni : List.count (Action.invokeHandler i)
      (CBManager.update_webview cps s).2 = 0 := update_webview_no_invoke i cps s
  unfold deliver
  rw [hL]
  simp only [runListeners, CBManager._debug_message, CBManager.remove_cb,
    hcb, hls, hC, hL]
  simp [invokeCount, hni, runListeners]

/-- Witness for C5 (amended) at a concrete input: one live registration
(index 0), a well-formed checkpoints message, then a second delivery. -/
theorem dispatch_wellformed_exactly_once_witness :
    invokeCount 0 (deliver ⟨some []⟩ oneRegState).2.1 = 1 ∧
    (deliver ⟨some []⟩ oneRegState).2.2 = none ∧
    (deliver ⟨some []⟩ oneRegState).1.callbacks = [] ∧
    (deliver ⟨some []⟩ oneRegState).1.listeners = [] ∧
    deliver ⟨none⟩ (deliver ⟨some []⟩ oneRegState).1 =
      ((deliver ⟨some []⟩ oneRegState).1, [], none) :=
  dispatch_wellformed_exactly_once oneRegState 0 [] ⟨none⟩ rfl rfl

end CodeLLDB
